import Mathlib

/-!
# alsparse — Lean embedding of the Ableton parser core

A shallow embedding of the repository's parser core:

* `src/alsparse/ableton/entities.py` (`AbletonAutomation.get_value_at`,
  `AbletonTrack.get_duration`, `AbletonProject.__calculate_duration`,
  `AbletonProject.__build_tempo_cache`, `AbletonProject.set_tracks`,
  `AbletonProject.get_tempo`, `AbletonProject.get_hash`)
* `src/alsparse/ableton/parser.py` (`AbletonParser.is_xml`, `is_gzip`,
  `probe_content`, `__parse_and_verify_version`, `AUTOMATION_SHORTCUTS`,
  `__resolve_automation_target`, `__get_track_automation_envelopes`,
  `__get_track_color`, `__get_track_name`, `__parse_audio_track`,
  `__parse_midi_track`, `__parse_simple_track`, `__parse_tracks`, `parse`)

Modelling conventions:

* Python `float` values (times, automation values, tempo) are modelled as
  exact rationals `ℚ`.  `bytes` is `List Nat` (one entry per byte).
* A Python exception that propagates out of the parser is `Except.error`;
  a clean `None` result is `Option.none` inside `Except.ok`.
* `xml.etree.ElementTree` elements are the inductive `XML` below;
  `Element.find`, `findall('*')`, `attrib[...]` and Python truthiness of
  `Optional[Element]` (`None` and childless elements are falsy) are
  modelled faithfully.
* The stdlib calls `gzip.decompress`, `ET.fromstring` and
  `hashlib.md5(...).hexdigest()` are parameters of the model (`PyLib`).
* `logging` calls at WARNING/ERROR level are modelled as strings
  accumulated alongside results; DEBUG/INFO calls are not modelled.
* `int(s)` is modelled on optionally signed decimal digit strings, and
  `float(s)` on optionally signed decimal strings with an optional
  fractional part (the exotic accepted forms — underscores, exponents,
  `inf`/`nan` — do not occur in the inputs considered here).
-/

namespace Alsparse

/-- Equality of parser results (`Except`) is decidable, so concrete runs
of the model can be checked by `decide`. -/
instance {ε α : Type} [DecidableEq ε] [DecidableEq α] : DecidableEq (Except ε α) := fun x y =>
  match x, y with
  | .error a, .error b => decidable_of_iff (a = b) (by simp)
  | .ok a, .ok b => decidable_of_iff (a = b) (by simp)
  | .error _, .ok _ => isFalse (fun h => Except.noConfusion h)
  | .ok _, .error _ => isFalse (fun h => Except.noConfusion h)

/-- Digit string to number, most significant first. -/
def natOfDigits (l : List Char) : Nat :=
  l.foldl (fun acc c => 10 * acc + (c.toNat - 48)) 0

/-- Python `int(s)` on an optionally signed decimal literal; `none` models
`ValueError`. -/
def parsePyInt (s : String) : Option Int :=
  match s.toList with
  | '-' :: rest =>
      if rest ≠ [] ∧ rest.all Char.isDigit then some (-(natOfDigits rest : Int)) else none
  | '+' :: rest =>
      if rest ≠ [] ∧ rest.all Char.isDigit then some (natOfDigits rest : Int) else none
  | l => if l ≠ [] ∧ l.all Char.isDigit then some (natOfDigits l : Int) else none

/-- Python `float(s)` on `[sign] digits [. digits]`; `none` models
`ValueError`.  Integral literals take the no-division path so that the
result is literally an integer cast. -/
def parsePyFloatCore (l : List Char) : Option ℚ :=
  let intPart := l.takeWhile Char.isDigit
  let rest := l.dropWhile Char.isDigit
  match rest with
  | [] => if intPart ≠ [] then some (natOfDigits intPart : ℚ) else none
  | '.' :: frac =>
      if frac.all Char.isDigit ∧ (intPart ≠ [] ∨ frac ≠ []) then
        if frac = [] then some (natOfDigits intPart : ℚ)
        else some ((natOfDigits intPart : ℚ) + (natOfDigits frac : ℚ) / (10 ^ frac.length : ℚ))
      else none
  | _ => none

def parsePyFloat (s : String) : Option ℚ :=
  match s.toList with
  | '-' :: rest => (parsePyFloatCore rest).map (fun q => -q)
  | '+' :: rest => parsePyFloatCore rest
  | l => parsePyFloatCore l

/-- Python `max` of a non-empty list (callers guard emptiness, as the
source does). -/
def pyMax : List ℚ → ℚ
  | [] => 0
  | x :: xs => xs.foldl max x

/-- Python `int(q)` on a number: truncation toward zero.  `q.num.tdiv q.den`
is exact truncation since `q` is in lowest terms. -/
def ratTrunc (q : ℚ) : Int :=
  q.num.tdiv (q.den : Int)

/-- Python list indexing `l[i]`: negative indices count from the end;
`none` models `IndexError`. -/
def pyIndex (l : List ℚ) (i : Int) : Option ℚ :=
  if 0 ≤ i then l[i.toNat]?
  else if 0 ≤ (l.length : Int) + i then l[((l.length : Int) + i).toNat]? else none

/-- Sequencing of fallible per-element work, as the source's `for` loops
over parsed children do: the first raised exception propagates. -/
def mapExcept (f : α → Except String β) : List α → Except String (List β)
  | [] => .ok []
  | a :: as =>
    match f a with
    | .error e => .error e
    | .ok b =>
      match mapExcept f as with
      | .error e => .error e
      | .ok bs => .ok (b :: bs)

/-! ## XML documents (`xml.etree.ElementTree`) -/

/-- An element tree node: tag, attribute dict (keys unique, insertion
order kept) and child elements in document order. -/
inductive XML where
  | elem (tag : String) (attrib : List (String × String)) (children : List XML)
deriving Inhabited

mutual

/-- Structural equality test for elements (used only to decide equations
about concrete documents in the theorems below). -/
def xmlBEq : XML → XML → Bool
  | .elem t1 a1 c1, .elem t2 a2 c2 => t1 == t2 && a1 == a2 && xmlBEqL c1 c2

def xmlBEqL : List XML → List XML → Bool
  | [], [] => true
  | x :: xs, y :: ys => xmlBEq x y && xmlBEqL xs ys
  | _, _ => false

end

mutual

theorem xmlBEq_iff : ∀ x y : XML, xmlBEq x y = true ↔ x = y
  | .elem t1 a1 c1, .elem t2 a2 c2 => by
    rw [xmlBEq, XML.elem.injEq]
    simp only [Bool.and_eq_true, beq_iff_eq, xmlBEqL_iff c1 c2, and_assoc]

theorem xmlBEqL_iff : ∀ xs ys : List XML, xmlBEqL xs ys = true ↔ xs = ys
  | [], [] => by simp [xmlBEqL]
  | [], _ :: _ => by simp [xmlBEqL]
  | _ :: _, [] => by simp [xmlBEqL]
  | x :: xs, y :: ys => by
    rw [xmlBEqL, List.cons.injEq]
    simp only [Bool.and_eq_true, xmlBEq_iff x y, xmlBEqL_iff xs ys]

end

instance : DecidableEq XML := fun x y => decidable_of_iff _ (xmlBEq_iff x y)

def XML.tag : XML → String
  | .elem t _ _ => t

def XML.attrib : XML → List (String × String)
  | .elem _ a _ => a

def XML.children : XML → List XML
  | .elem _ _ cs => cs

/-- `element.find(tag)`: first direct child with the tag, else `None`. -/
def pyFind (e : XML) (t : String) : Option XML :=
  e.children.find? (fun c => c.tag == t)

/-- `element.find(tag)` where the caller immediately dereferences the
result, so a missing child is an `AttributeError` on `None`. -/
def findE (e : XML) (t : String) : Except String XML :=
  match pyFind e t with
  | some c => .ok c
  | none => .error ("AttributeError: no child " ++ t)

/-- `element.attrib[k]`; a missing key is a `KeyError`. -/
def attrGetE (e : XML) (k : String) : Except String String :=
  match e.attrib.lookup k with
  | some v => .ok v
  | none => .error ("KeyError: " ++ k)

/-- `int(element.attrib-value)` with `ValueError` on bad input. -/
def pyIntE (s : String) : Except String Int :=
  match parsePyInt s with
  | some v => .ok v
  | none => .error ("ValueError: int " ++ s)

/-- `float(element.attrib-value)` with `ValueError` on bad input. -/
def pyFloatE (s : String) : Except String ℚ :=
  match parsePyFloat s with
  | some v => .ok v
  | none => .error ("ValueError: float " ++ s)

/-- Python truthiness of an `Optional[Element]`: `None` is falsy, and so
is an element with no children (`ElementTree` defines `__len__`). -/
def truthyOpt : Option XML → Bool
  | none => false
  | some e => !e.children.isEmpty

/-- Python truthiness of `Optional[list]`: `None` and `[]` are falsy. -/
def truthyList : Option (List String) → Bool
  | some (_ :: _) => true
  | _ => false

/-! ## Container sniffer (`AbletonParser.is_xml` / `is_gzip` /
`probe_content`) -/

/-- The two gzip magic bytes `\x1f\x8b`. -/
def gzipMagic : List Nat := [31, 139]

/-- The bytes of `<?xml version="1.0" encoding="UTF-8"?>`. -/
def xmlProlog : List Nat :=
  [60, 63, 120, 109, 108, 32, 118, 101, 114, 115, 105, 111, 110, 61, 34,
   49, 46, 48, 34, 32, 101, 110, 99, 111, 100, 105, 110, 103, 61, 34,
   85, 84, 70, 45, 56, 34, 63, 62]

/-- `AbletonParser.is_gzip`: content starts with the gzip magic number. -/
def isGzip (content : List Nat) : Bool :=
  gzipMagic.isPrefixOf content

/-- `AbletonParser.is_xml`: content starts with the exact UTF-8 XML
prolog. -/
def isXml (content : List Nat) : Bool :=
  xmlProlog.isPrefixOf content

/-- `AbletonParser.probe_content`. -/
def probeContent (content : List Nat) : Bool :=
  isXml content || isGzip content

/-! ## Entities (`src/alsparse/ableton/entities.py`)

Parent back-references carry no data and are omitted.  `ProjectTime` is
`ℚ`, `ProjectStart = 0` (`src/alsparse.py`). -/

structure Color where
  r : Nat
  g : Nat
  b : Nat
  a : Nat
deriving DecidableEq

/-- `Color.DEFAULT`, the color every parsed entity receives. -/
def colorDefault : Color := ⟨0, 0, 0, 255⟩

/-- The five track classes `AbletonAudioTrack` … `AbletonMasterTrack`. -/
inductive TrackKind where
  | audio
  | midi
  | group
  | ret
  | master
deriving DecidableEq, BEq

/-- `AbletonAudioClip` / `AbletonMidiClip` (notes are never populated and
`analyzed_data` is always empty, so neither is carried). -/
structure ClipE where
  name : String
  color : Color
  startTime : ℚ
  endTime : ℚ
  disabled : Bool
deriving DecidableEq

/-- `AbletonAutomation`. -/
structure AutomationE where
  name : String
  color : Color
  target : Option String
  events : List (ℚ × ℚ)
deriving DecidableEq

/-- `AbletonTrack` with its concrete class recorded as `kind`. -/
structure TrackE where
  kind : TrackKind
  name : String
  color : Color
  clips : List ClipE
  automations : List AutomationE
deriving DecidableEq

/-- The scan of `AbletonAutomation.get_value_at`'s `for` loop over
consecutive event pairs: the first pair bracketing `time` interpolates. -/
def interpLoop : List (ℚ × ℚ) → ℚ → Option ℚ
  | p :: q :: rest, time =>
    if p.1 ≤ time ∧ time ≤ q.1 then
      some (p.2 + (q.2 - p.2) * (time - p.1) / (q.1 - p.1))
    else interpLoop (q :: rest) time
  | _, _ => none

/-- `AbletonAutomation.get_value_at`: `0` with no events, else the loop,
else the last event's value. -/
def getValueAt (events : List (ℚ × ℚ)) (time : ℚ) : ℚ :=
  match events with
  | [] => 0
  | e :: es =>
    match interpLoop (e :: es) time with
    | some v => v
    | none => ((e :: es).getLast (List.cons_ne_nil e es)).2

/-- `AbletonTrack.get_duration`: max clip end, `0` with no clips. -/
def trackDuration (t : TrackE) : ℚ :=
  if t.clips.isEmpty then 0 else pyMax (t.clips.map (·.endTime))

/-- `AbletonProject.__calculate_duration`: max track duration, `0` with no
tracks. -/
def calcDuration (tracks : List TrackE) : ℚ :=
  if tracks.isEmpty then 0 else pyMax (tracks.map trackDuration)

/-- `AbletonProject.TIME_SLICE = 1 / 1000`. -/
def TIME_SLICE : ℚ := 1 / 1000

/-- `AbletonProject.__build_tempo_cache`, returning
`(base tempo, tempo cache, warnings)`.  On an early return the base and
cache keep their `__init__` values `0` and `[]`.  Note the cache samples
`get_value_at(i)` at the integer loop index `i`, not at `i * TIME_SLICE`. -/
def buildTempoCache (tracks : List TrackE) (duration : ℚ) : ℚ × List ℚ × List String :=
  match tracks.find? (fun t => t.kind == TrackKind.master) with
  | none => (0, [], ["WARNING: Master track not found"])
  | some mt =>
    match mt.automations.find? (fun a => a.target == some "Tempo") with
    | none => (0, [], ["WARNING: Tempo automation not found"])
    | some auto =>
      (getValueAt auto.events 0,
       (List.range (ratTrunc (duration / TIME_SLICE)).toNat).map
         (fun i : Nat => getValueAt auto.events (i : ℚ)),
       [])

/-- `AbletonProject` after `__init__` (and, once `set_tracks` ran, with
the derived fields filled in). -/
structure AbletonProject where
  major : Int
  minorA : Int
  minorB : Int
  minorC : Int
  metadata : List (String × String)
  hash : String
  tracks : List TrackE
  duration : ℚ
  tempoCache : List ℚ
  baseTempo : ℚ
deriving DecidableEq

/-- `AbletonProject.__init__(major, minorA, minorB, minorC, metadata, hash)`. -/
def mkProject (major minorA minorB minorC : Int) (metadata : List (String × String))
    (hash : String) : AbletonProject :=
  ⟨major, minorA, minorB, minorC, metadata, hash, [], 0, [], 0⟩

/-- `AbletonProject.set_tracks`: store the tracks, cache the duration,
build the tempo cache.  Returns the updated project and the warnings. -/
def setTracks (p : AbletonProject) (tracks : List TrackE) : AbletonProject × List String :=
  let dur := calcDuration tracks
  let bc := buildTempoCache tracks dur
  ({ p with tracks := tracks, duration := dur, baseTempo := bc.1, tempoCache := bc.2.1 },
   bc.2.2)

/-- `AbletonProject.get_tempo(at)`: the base tempo at `ProjectStart = 0`,
else the cache entry at `int(at / TIME_SLICE)` (Python list indexing;
`none` models `IndexError`). -/
def getTempo (p : AbletonProject) (t : ℚ) : Option ℚ :=
  if t = 0 then some p.baseTempo
  else pyIndex p.tempoCache (ratTrunc (t / TIME_SLICE))

/-! ## Version resolver (`AbletonParser.__parse_and_verify_version`) -/

/-- `MINOR_REGEX = re.compile(r'(\d+)\.(\d+)_(\d+)')` applied with
`re.match`: a match anchored at the start, trailing text allowed. -/
def matchMinor (s : String) : Option (Nat × Nat × Nat) :=
  let l := s.toList
  let d1 := l.takeWhile Char.isDigit
  match l.dropWhile Char.isDigit with
  | '.' :: r2 =>
    let d2 := r2.takeWhile Char.isDigit
    match r2.dropWhile Char.isDigit with
    | '_' :: r4 =>
      let d3 := r4.takeWhile Char.isDigit
      if d1 ≠ [] ∧ d2 ≠ [] ∧ d3 ≠ [] then
        some (natOfDigits d1, natOfDigits d2, natOfDigits d3)
      else none
    | _ => none
  | _ => none

/-- The 5-tuple `(major, minorA, minorB, minorC, metadata)` that
`__parse_and_verify_version` returns. -/
structure VersionInfo where
  major : Int
  minorA : Int
  minorB : Int
  minorC : Int
  metadata : List (String × String)
deriving DecidableEq

/-- `AbletonParser.__parse_and_verify_version`.  A missing attribute is a
`KeyError`, a non-integer major a `ValueError`, and a minor version that
does not match the regex an `AttributeError` (`match` is `None` and
`.groups()` is taken) — all uncaught, so all `Except.error`. -/
def parseAndVerifyVersion (tree : XML) : Except String VersionInfo :=
  match attrGetE tree "MajorVersion" with
  | .error e => .error e
  | .ok mj =>
    match pyIntE mj with
    | .error e => .error e
    | .ok major =>
      match attrGetE tree "MinorVersion" with
      | .error e => .error e
      | .ok mv =>
        match matchMinor mv with
        | none => .error "AttributeError: NoneType has no attribute groups"
        | some (a, b, c) =>
          let metadata := tree.attrib.filter
            (fun kv => !(kv.1 == "MajorVersion") && !(kv.1 == "MinorVersion"))
          .ok ⟨major, (a : Int), (b : Int), (c : Int), metadata⟩

/-! ## Automation-target resolver
(`AbletonParser.AUTOMATION_SHORTCUTS`, `__resolve_automation_target`) -/

/-- The literal `AUTOMATION_SHORTCUTS` dict as written in the class body,
before the expansion loop runs. -/
def baseShortcuts : List (String × String) :=
  [("$\x7btrack_type\x7d.DeviceChain.Mixer.Volume", "Volume"),
   ("$\x7btrack_type\x7d.DeviceChain.Mixer.On", "On"),
   ("$\x7btrack_type\x7d.DeviceChain.Mixer.Pan", "Pan"),
   ("$\x7btrack_type\x7d.DeviceChain.Mixer.Sends.TrackSendHolder.Send", "Send"),
   ("$\x7btrack_type\x7d.DeviceChain.Mixer.SplitStereoPanL", "SplitStereoPanL"),
   ("$\x7btrack_type\x7d.DeviceChain.Mixer.SplitStereoPanR", "SplitStereoPanR"),
   ("$\x7btrack_type\x7d.DeviceChain.DeviceChain.Devices", "Plugins"),
   ("MainTrack.DeviceChain.Mixer.Tempo", "Tempo"),
   ("MainTrack.DeviceChain.Mixer.TimeSignature", "TimeSignature")]

/-- Python `dict[k] = v`: an existing key keeps its position, a new key is
appended. -/
def dictInsert (d : List (String × String)) (k v : String) : List (String × String) :=
  if d.any (fun kv => kv.1 == k) then
    d.map (fun kv => if kv.1 == k then (k, v) else kv)
  else d ++ [(k, v)]

/-- One iteration of the class-body expansion loop: iterate over a
`deepcopy` (snapshot) of the dict, assigning each key with the
`$\x7btrack_type\x7d` placeholder replaced. -/
def expandStep (d : List (String × String)) (tt : String) : List (String × String) :=
  d.foldl (fun acc kv => dictInsert acc (kv.1.replace "$\x7btrack_type\x7d" tt) kv.2) d

/-- `AUTOMATION_SHORTCUTS` after the class-body loop over the five track
type names, in dict iteration order. -/
def AUTOMATION_SHORTCUTS : List (String × String) :=
  ["AudioTrack", "MidiTrack", "GroupTrack", "ReturnTrack", "MainTrack"].foldl
    expandStep baseShortcuts

/-- The `for shortcut, target in AUTOMATION_SHORTCUTS.items(): path =
path.replace(shortcut, target)` loop. -/
def applyShortcuts (path : String) : String :=
  AUTOMATION_SHORTCUTS.foldl (fun acc kv => acc.replace kv.1 kv.2) path

mutual

/-- The inner `walk(path, node)` of `__resolve_automation_target`: check
the node itself, then the children in order.  A marker node without an
integer `Id` attribute raises. -/
def walk (targetId : Int) (path : List String) : XML → Except String (Option (List String))
  | .elem tg attrs cs =>
    if tg == "AutomationTarget" then
      match attrs.lookup "Id" with
      | none => .error "KeyError: Id"
      | some s =>
        match parsePyInt s with
        | none => .error ("ValueError: int " ++ s)
        | some n =>
          if n == targetId then .ok (some path)
          else walkChildren targetId (path ++ [tg]) cs
    else walkChildren targetId (path ++ [tg]) cs

/-- The `for child in node` loop of `walk`: a falsy result (`None` or the
empty path) does not end the loop. -/
def walkChildren (targetId : Int) (path : List String) : List XML → Except String (Option (List String))
  | [] => .ok none
  | c :: cs =>
    match walk targetId path c with
    | .error e => .error e
    | .ok r => if truthyList r then .ok r else walkChildren targetId path cs

end

/-- The ERROR record `Failed to resolve automation target with ID %d`. -/
def resolveErrMsg (targetId : Int) : String :=
  "ERROR: Failed to resolve automation target with ID " ++ toString targetId

/-- `AbletonParser.__resolve_automation_target`: walk from the track root;
a falsy path (`None`, or the empty path when the root itself is the
marker) is a logged failure; otherwise join with `.` and collapse
shortcuts. -/
def resolveAutomationTarget (targetId : Int) (track : XML) :
    Except String (Option String × List String) :=
  match walk targetId [] track with
  | .error e => .error e
  | .ok r =>
    if truthyList r then
      .ok (some (applyShortcuts (String.intercalate "." (r.getD []))), [])
    else
      .ok (none, [resolveErrMsg targetId])

/-! ## Entity builder (`__get_track_*`, `__parse_*_track`) -/

/-- One `FloatEvent`-style node of `<Events>`: `Time` as float; `Value`
literally `"true"`/`"false"` as `1`/`0`, else as float. -/
def parseEventPoint (event : XML) : Except String (ℚ × ℚ) :=
  match attrGetE event "Time" with
  | .error e => .error e
  | .ok ts =>
    match pyFloatE ts with
    | .error e => .error e
    | .ok time =>
      match attrGetE event "Value" with
      | .error e => .error e
      | .ok val =>
        if val == "true" || val == "false" then
          .ok (time, if val == "true" then 1 else 0)
        else
          match pyFloatE val with
          | .error e => .error e
          | .ok v => .ok (time, v)

/-- One `<AutomationEnvelope>` of `__get_track_automation_envelopes`:
resolve the `PointeeId` target against the whole track subtree, then
collect the event points.  The automation is recorded with name
`"unknown"` even when the target is unresolved (`none`). -/
def parseEnvelope (track : XML) (envelope : XML) : Except String (AutomationE × List String) :=
  match findE envelope "EnvelopeTarget" with
  | .error e => .error e
  | .ok et =>
    match findE et "PointeeId" with
    | .error e => .error e
    | .ok pid =>
      match attrGetE pid "Value" with
      | .error e => .error e
      | .ok vs =>
        match pyIntE vs with
        | .error e => .error e
        | .ok targetId =>
          match resolveAutomationTarget targetId track with
          | .error e => .error e
          | .ok (target, rlog) =>
            match findE envelope "Automation" with
            | .error e => .error e
            | .ok auto =>
              match findE auto "Events" with
              | .error e => .error e
              | .ok events =>
                match mapExcept parseEventPoint events.children with
                | .error e => .error e
                | .ok points => .ok (⟨"unknown", colorDefault, target, points⟩, rlog)

/-- `AbletonParser.__get_track_automation_envelopes`. -/
def parseEnvelopes (track : XML) : Except String (List AutomationE × List String) :=
  match findE track "AutomationEnvelopes" with
  | .error e => .error e
  | .ok ae =>
    match findE ae "Envelopes" with
    | .error e => .error e
    | .ok envs =>
      match mapExcept (parseEnvelope track) envs.children with
      | .error e => .error e
      | .ok rs => .ok (rs.map (·.1), rs.flatMap (·.2))

/-- `AbletonParser.__get_track_color`: parse the `Color` value as an int
(its exceptions propagate) but always return `Color.DEFAULT`. -/
def getTrackColor (track : XML) : Except String Color :=
  match findE track "Color" with
  | .error e => .error e
  | .ok c =>
    match attrGetE c "Value" with
    | .error e => .error e
    | .ok v =>
      match pyIntE v with
      | .error e => .error e
      | .ok _ => .ok colorDefault

/-- `AbletonParser.__get_track_name`:
`track.find('Name').find('EffectiveName').attrib['Value']`. -/
def getTrackName (track : XML) : Except String String :=
  match findE track "Name" with
  | .error e => .error e
  | .ok n =>
    match findE n "EffectiveName" with
    | .error e => .error e
    | .ok en => attrGetE en "Value"

/-- One `<AudioClip>`/`<MidiClip>` child of the events node:
`CurrentStart`, `CurrentEnd`, `Name`, color, `Disabled`, read in the
source's order. -/
def parseClipNode (clip : XML) : Except String ClipE :=
  match findE clip "CurrentStart" with
  | .error e => .error e
  | .ok csn =>
    match attrGetE csn "Value" with
    | .error e => .error e
    | .ok sv =>
      match pyFloatE sv with
      | .error e => .error e
      | .ok start =>
        match findE clip "CurrentEnd" with
        | .error e => .error e
        | .ok cen =>
          match attrGetE cen "Value" with
          | .error e => .error e
          | .ok ev =>
            match pyFloatE ev with
            | .error e => .error e
            | .ok stop =>
              match findE clip "Name" with
              | .error e => .error e
              | .ok nn =>
                match attrGetE nn "Value" with
                | .error e => .error e
                | .ok name =>
                  match getTrackColor clip with
                  | .error e => .error e
                  | .ok _ =>
                    match findE clip "Disabled" with
                    | .error e => .error e
                    | .ok dn =>
                      match attrGetE dn "Value" with
                      | .error e => .error e
                      | .ok dv =>
                        .ok ⟨name, colorDefault, start, stop, dv == "true"⟩

/-- `AbletonParser.__parse_audio_track`: name and color, then the clip
chain `DeviceChain → MainSequencer → Sample → ArrangerAutomation →
Events` filtered to `AudioClip` children, then the envelopes. -/
def parseAudioTrack (tree : XML) : Except String (TrackE × List String) :=
  match getTrackName tree with
  | .error e => .error e
  | .ok name =>
    match getTrackColor tree with
    | .error e => .error e
    | .ok _ =>
      match findE tree "DeviceChain" with
      | .error e => .error e
      | .ok dc =>
        match findE dc "MainSequencer" with
        | .error e => .error e
        | .ok ms =>
          match findE ms "Sample" with
          | .error e => .error e
          | .ok sp =>
            match findE sp "ArrangerAutomation" with
            | .error e => .error e
            | .ok aa =>
              match findE aa "Events" with
              | .error e => .error e
              | .ok evs =>
                match mapExcept parseClipNode
                    (evs.children.filter (fun c => c.tag == "AudioClip")) with
                | .error e => .error e
                | .ok clips =>
                  match parseEnvelopes tree with
                  | .error e => .error e
                  | .ok (autos, alog) =>
                    .ok (⟨TrackKind.audio, name, colorDefault, clips, autos⟩, alog)

/-- `AbletonParser.__parse_midi_track`: same shape through
`ClipTimeable`, filtered to `MidiClip` children (notes unparsed). -/
def parseMidiTrack (tree : XML) : Except String (TrackE × List String) :=
  match getTrackName tree with
  | .error e => .error e
  | .ok name =>
    match getTrackColor tree with
    | .error e => .error e
    | .ok _ =>
      match findE tree "DeviceChain" with
      | .error e => .error e
      | .ok dc =>
        match findE dc "MainSequencer" with
        | .error e => .error e
        | .ok ms =>
          match findE ms "ClipTimeable" with
          | .error e => .error e
          | .ok ct =>
            match findE ct "ArrangerAutomation" with
            | .error e => .error e
            | .ok aa =>
              match findE aa "Events" with
              | .error e => .error e
              | .ok evs =>
                match mapExcept parseClipNode
                    (evs.children.filter (fun c => c.tag == "MidiClip")) with
                | .error e => .error e
                | .ok clips =>
                  match parseEnvelopes tree with
                  | .error e => .error e
                  | .ok (autos, alog) =>
                    .ok (⟨TrackKind.midi, name, colorDefault, clips, autos⟩, alog)

/-- `AbletonParser.__parse_simple_track` (Group/Return/Master): no clips,
only name, color and envelopes. -/
def parseSimpleTrack (kind : TrackKind) (tree : XML) : Except String (TrackE × List String) :=
  match getTrackName tree with
  | .error e => .error e
  | .ok name =>
    match getTrackColor tree with
    | .error e => .error e
    | .ok _ =>
      match parseEnvelopes tree with
      | .error e => .error e
      | .ok (autos, alog) =>
        .ok (⟨kind, name, colorDefault, [], autos⟩, alog)

/-! ## Track enumeration (`AbletonParser.__parse_tracks`) -/

/-- The four tags the `for track in xml_tracks:` dispatch recognizes. -/
def knownTag (s : String) : Bool :=
  s == "AudioTrack" || s == "MidiTrack" || s == "GroupTrack" || s == "ReturnTrack"

/-- The per-tag dispatch of `__parse_tracks` (callers guard `knownTag`). -/
def dispatchTrack (c : XML) : Except String (TrackE × List String) :=
  if c.tag == "AudioTrack" then parseAudioTrack c
  else if c.tag == "MidiTrack" then parseMidiTrack c
  else if c.tag == "GroupTrack" then parseSimpleTrack TrackKind.group c
  else parseSimpleTrack TrackKind.ret c

/-- The `for track in xml_tracks:` loop: recognized tags parse and append
in document order, anything else logs `Unknown track type`. -/
def parseTracksLoop : List XML → Except String (List TrackE × List String)
  | [] => .ok ([], [])
  | c :: cs =>
    match
      (if knownTag c.tag then
        match dispatchTrack c with
        | .error e => .error e
        | .ok (t, lg) => .ok ([t], lg)
      else .ok ([], ["WARNING: Unknown track type: " ++ c.tag]) :
        Except String (List TrackE × List String)) with
    | .error e => .error e
    | .ok (ts1, lg1) =>
      match parseTracksLoop cs with
      | .error e => .error e
      | .ok (ts, lg) => .ok (ts1 ++ ts, lg1 ++ lg)

/-- `AbletonParser.__parse_tracks`: the loop over
`LiveSet/Tracks/findall('*')`, then the master track looked up as the
`MainTrack` (else `MasterTrack`) child of `LiveSet` under Python element
truthiness, appended last or warned about. -/
def parseTracks (tree : XML) : Except String (List TrackE × List String) :=
  match pyFind tree "LiveSet" with
  | none => .error "AttributeError: no child LiveSet"
  | some ls =>
    match pyFind ls "Tracks" with
    | none => .error "AttributeError: no child Tracks"
    | some trks =>
      match parseTracksLoop trks.children with
      | .error e => .error e
      | .ok (tracks, log) =>
        let m1 := pyFind ls "MainTrack"
        match (if truthyOpt m1 then m1 else pyFind ls "MasterTrack") with
        | some me =>
          if me.children.isEmpty then
            .ok (tracks, log ++ ["WARNING: Main track not found"])
          else
            match parseSimpleTrack TrackKind.master me with
            | .error e => .error e
            | .ok (mt, mlog) => .ok (tracks ++ [mt], log ++ mlog)
        | none => .ok (tracks, log ++ ["WARNING: Main track not found"])

/-! ## Top-level parse (`AbletonParser.parse`) -/

/-- The Python stdlib calls the parser makes, as parameters of the model:
`gzip.decompress`, `ET.fromstring` and `hashlib.md5(...).hexdigest()`. -/
structure PyLib where
  gunzip : List Nat → Except String (List Nat)
  fromstring : List Nat → Except String XML
  md5hex : List Nat → String

/-- `AbletonParser.parse` after the sniff/decompress step, on the
(possibly decompressed) `content`.  The `if not data: return None` guard
after `__parse_and_verify_version` is dead code — that function either
raises or returns a (truthy) 5-tuple — and is not modelled.  Note the MD5
digest is taken of `content` as it stands here. -/
def parseAfterSniff (lib : PyLib) (content : List Nat) (log : List String) :
    Except String (Option AbletonProject × List String) :=
  if isXml content then
    match lib.fromstring content with
    | .error _ => .ok (none, log ++ ["ERROR: Failed to parse XML"])
    | .ok tree =>
      match parseAndVerifyVersion tree with
      | .error e => .error e
      | .ok v =>
        let hash := lib.md5hex content
        match parseTracks tree with
        | .error e => .error e
        | .ok (tracks, tlog) =>
          if tracks.isEmpty then .ok (none, log ++ tlog)
          else
            let ps := setTracks
              (mkProject v.major v.minorA v.minorB v.minorC v.metadata hash) tracks
            .ok (some ps.1, log ++ tlog ++ ps.2)
  else .ok (none, log ++ ["ERROR: Invalid content"])

/-- `AbletonParser.parse(content)`: decompress when the gzip magic is
present (a failure is logged and yields `None`), then sniff, load, parse
version, tracks, and assemble. -/
def parse (lib : PyLib) (content : List Nat) :
    Except String (Option AbletonProject × List String) :=
  if isGzip content then
    match lib.gunzip content with
    | .error _ => .ok (none, ["ERROR: Failed to decompress"])
    | .ok c => parseAfterSniff lib c []
  else parseAfterSniff lib content []

/-- The bytes the MD5 digest is in fact taken of: the input after the
optional gzip decompression. -/
def effectiveContent (lib : PyLib) (content : List Nat) : List Nat :=
  if isGzip content then
    match lib.gunzip content with
    | .ok c => c
    | .error _ => content
  else content

/-! ## Specification-level descriptions

Pure restatements of what the spec says the algorithms do, to be compared
with the embedded source functions above. -/

mutual

/-- Pre-order enumeration of a subtree, each node with the tag path
accumulated from the root (node's own tag excluded), as the spec
describes the target-resolution walk. -/
def preorderPaths (path : List String) : XML → List (List String × XML)
  | .elem tg attrs cs => (path, XML.elem tg attrs cs) :: preorderPathsList (path ++ [tg]) cs

def preorderPathsList (path : List String) : List XML → List (List String × XML)
  | [] => []
  | c :: cs => preorderPaths path c ++ preorderPathsList path cs

end

/-- Is `n` a target-marker node carrying the queried id? -/
def isMarkerFor (targetId : Int) (n : XML) : Bool :=
  n.tag == "AutomationTarget" && ((n.attrib.lookup "Id").bind parsePyInt == some targetId)

/-- The accumulated tag path of the first pre-order marker match, per the
spec's description of target resolution. -/
def specFirstMatch (targetId : Int) (t : XML) : Option (List String) :=
  ((preorderPaths [] t).find? (fun pr => isMarkerFor targetId pr.2)).map (·.1)

mutual

/-- Every `AutomationTarget` node of the subtree carries an attribute
`Id` that parses as an integer (otherwise the source's walk raises). -/
def wfMarkersX : XML → Bool
  | .elem tg attrs cs =>
    (!(tg == "AutomationTarget") || ((attrs.lookup "Id").bind parsePyInt).isSome)
      && wfMarkersL cs

def wfMarkersL : List XML → Bool
  | [] => true
  | c :: cs => wfMarkersX c && wfMarkersL cs

end

/-! ## Concrete documents and stdlib instantiations for the concrete runs -/

/-- A minimal well-formed `<AudioTrack>` with no clips and no automation
envelopes. -/
def audioTrackElem : XML :=
  .elem "AudioTrack" []
    [.elem "Name" [] [.elem "EffectiveName" [("Value", "Audio")] []],
     .elem "Color" [("Value", "13")] [],
     .elem "DeviceChain" []
       [.elem "MainSequencer" []
         [.elem "Sample" []
           [.elem "ArrangerAutomation" []
             [.elem "Events" [] []]]]],
     .elem "AutomationEnvelopes" [] [.elem "Envelopes" [] []]]

/-- A minimal well-formed `<ReturnTrack>`. -/
def returnTrackElem : XML :=
  .elem "ReturnTrack" []
    [.elem "Name" [] [.elem "EffectiveName" [("Value", "Return")] []],
     .elem "Color" [("Value", "2")] [],
     .elem "AutomationEnvelopes" [] [.elem "Envelopes" [] []]]

/-- A minimal well-formed `<MainTrack>`. -/
def masterTrackElem : XML :=
  .elem "MainTrack" []
    [.elem "Name" [] [.elem "EffectiveName" [("Value", "Master")] []],
     .elem "Color" [("Value", "3")] [],
     .elem "AutomationEnvelopes" [] [.elem "Envelopes" [] []]]

def trackAudioParsed : TrackE := ⟨TrackKind.audio, "Audio", colorDefault, [], []⟩

def trackReturnParsed : TrackE := ⟨TrackKind.ret, "Return", colorDefault, [], []⟩

def trackMasterParsed : TrackE := ⟨TrackKind.master, "Master", colorDefault, [], []⟩

/-- A structurally valid document with one audio track and no main/master
track. -/
def c2doc : XML :=
  .elem "Ableton" [("MajorVersion", "5"), ("MinorVersion", "10.0_377"), ("Creator", "Test")]
    [.elem "LiveSet" [] [.elem "Tracks" [] [audioTrackElem]]]

def c2bytes : List Nat := xmlProlog

def c2lib : PyLib :=
  ⟨fun _ => .error "gzip error", fun _ => .ok c2doc, fun _ => "H"⟩

/-- The project `parse` builds from `c2doc`. -/
def c2proj : AbletonProject :=
  ⟨5, 10, 0, 377, [("Creator", "Test")], "H", [trackAudioParsed], 0, [], 0⟩

def c2log : List String :=
  ["WARNING: Main track not found", "WARNING: Master track not found"]

/-- The spec's `value_at` example events `[(0, 0.0), (10, 1.0)]`. -/
def c1events : List (ℚ × ℚ) := [(0, 0), (10, 1)]

/-- A root whose `MinorVersion` does not match the version pattern. -/
def c3root : XML :=
  .elem "Ableton" [("MajorVersion", "5"), ("MinorVersion", "abc")] []

/-- A root with a well-formed version signature. -/
def c3ok : XML :=
  .elem "Ableton"
    [("MajorVersion", "5"), ("MinorVersion", "10.0_377"), ("Creator", "Ableton Live 10.1.7")] []

def c3lib : PyLib :=
  ⟨fun _ => .error "gzip error", fun _ => .ok c3root, fun _ => "md5"⟩

/-- The master-track Tempo automation of the C4 run: events
`[(0, 60), (4, 100)]`. -/
def c4auto : AutomationE := ⟨"unknown", colorDefault, some "Tempo", [(0, 60), (4, 100)]⟩

/-- A project with one audio clip ending at time 4 and a master track
carrying the Tempo automation. -/
def c4tracks : List TrackE :=
  [⟨TrackKind.audio, "Audio", colorDefault, [⟨"clip", colorDefault, 0, 4, false⟩], []⟩,
   ⟨TrackKind.master, "Master", colorDefault, [], [c4auto]⟩]

def c4proj : AbletonProject :=
  (setTracks (mkProject 5 10 0 377 [] "h") c4tracks).1

/-- Five bytes beginning with the gzip magic number. -/
def c5gzBytes : List Nat := [31, 139, 8, 0, 0]

/-- A stdlib where decompressing `c5gzBytes` yields the plain `c2doc`
document bytes, and where the digests of the two byte strings differ. -/
def c5lib : PyLib :=
  ⟨fun b => if b = c5gzBytes then .ok c2bytes else .error "gzip error",
   fun _ => .ok c2doc,
   fun b => if b = c5gzBytes then "DIGEST-ORIGINAL" else "DIGEST-DECOMPRESSED"⟩

/-- The first pre-order node is the track root itself tagged as the
marker: the walk's accumulated path is empty. -/
def c7root : XML := .elem "AutomationTarget" [("Id", "5")] []

/-- A resolvable marker sitting under a mixer volume path. -/
def c7track : XML :=
  .elem "AudioTrack" []
    [.elem "DeviceChain" []
      [.elem "Mixer" []
        [.elem "Volume" []
          [.elem "AutomationTarget" [("Id", "7")] []]]]]

/-- An automation envelope whose `PointeeId` (999) matches no marker in
its track. -/
def c8envelope : XML :=
  .elem "AutomationEnvelope" [("Id", "1")]
    [.elem "EnvelopeTarget" [] [.elem "PointeeId" [("Value", "999")] []],
     .elem "Automation" []
       [.elem "Events" []
         [.elem "FloatEvent" [("Id", "1"), ("Time", "0"), ("Value", "1")] []]]]

/-- An audio track carrying `c8envelope` and no marker nodes at all. -/
def c8track : XML :=
  .elem "AudioTrack" []
    [.elem "Name" [] [.elem "EffectiveName" [("Value", "Audio")] []],
     .elem "Color" [("Value", "13")] [],
     .elem "DeviceChain" []
       [.elem "MainSequencer" []
         [.elem "Sample" []
           [.elem "ArrangerAutomation" []
             [.elem "Events" [] []]]]],
     .elem "AutomationEnvelopes" [] [.elem "Envelopes" [] [c8envelope]]]

def c8doc : XML :=
  .elem "Ableton" [("MajorVersion", "5"), ("MinorVersion", "10.0_377")]
    [.elem "LiveSet" [] [.elem "Tracks" [] [c8track]]]

def c8lib : PyLib :=
  ⟨fun _ => .error "gzip error", fun _ => .ok c8doc, fun _ => "H8"⟩

/-- The automation `parse` records for `c8envelope`: unresolved target,
events kept. -/
def c8auto : AutomationE := ⟨"unknown", colorDefault, none, [(0, 1)]⟩

def c8trackParsed : TrackE := ⟨TrackKind.audio, "Audio", colorDefault, [], [c8auto]⟩

def c8proj : AbletonProject :=
  ⟨5, 10, 0, 377, [], "H8", [c8trackParsed], 0, [], 0⟩

def c8log : List String :=
  [resolveErrMsg 999, "WARNING: Main track not found", "WARNING: Master track not found"]

/-- The track container of the C6 witness: audio, an unknown tag, return
— and a main track elsewhere under `LiveSet`. -/
def c6ls : XML :=
  .elem "LiveSet" []
    [.elem "Tracks" [] [audioTrackElem, .elem "Junk" [] [], returnTrackElem],
     masterTrackElem]

def c6tree : XML :=
  .elem "Ableton" [("MajorVersion", "5"), ("MinorVersion", "10.0_377")] [c6ls]

def c6trks : XML :=
  .elem "Tracks" [] [audioTrackElem, .elem "Junk" [] [], returnTrackElem]

/-- A well-formed document whose track container has no recognized track
and which has no main/master track. -/
def c10doc : XML :=
  .elem "Ableton" [("MajorVersion", "5"), ("MinorVersion", "10.0_377")]
    [.elem "LiveSet" [] [.elem "Tracks" [] [.elem "Junk" [] []]]]

def c10lib : PyLib :=
  ⟨fun _ => .error "gzip error", fun _ => .ok c10doc, fun _ => "HX"⟩

/-! ## Helper lemmas -/

theorem pyIndex_nil (i : Int) : pyIndex [] i = none := by
  unfold pyIndex
  rcases i with n | n
  · simp
  · simp [Int.negSucc_lt_zero]

/-- The strict time order of an event list, as a relation on events. -/
def eventLT (a b : ℚ × ℚ) : Prop := a.1 < b.1

theorem chain'_head_lt (x : ℚ × ℚ) (l : List (ℚ × ℚ))
    (h : List.Chain' eventLT (x :: l)) : ∀ y ∈ l, x.1 < y.1 := by
  induction l generalizing x with
  | nil => intro y hy; cases hy
  | cons z l ih =>
    intro y hy
    have hxz : x.1 < z.1 := (List.chain'_cons.mp h).1
    rcases List.mem_cons.mp hy with rfl | hy'
    · exact hxz
    · exact hxz.trans (ih z (List.chain'_cons.mp h).2 y hy')

theorem chain'_head_le_getLast (x : ℚ × ℚ) (l : List (ℚ × ℚ))
    (h : List.Chain' eventLT (x :: l)) :
    x.1 ≤ ((x :: l).getLast (List.cons_ne_nil x l)).1 := by
  cases l with
  | nil => simp
  | cons z l =>
    rw [List.getLast_cons (List.cons_ne_nil z l)]
    exact le_of_lt (chain'_head_lt x (z :: l) h _ (List.getLast_mem (List.cons_ne_nil z l)))

/-- `get_value_at` on `a :: b :: l` when the first pair does not bracket
`time`: the loop moves on and the fallback last event is unchanged. -/
theorem getValueAt_cons₂ (a b : ℚ × ℚ) (l : List (ℚ × ℚ)) (t : ℚ)
    (h : ¬(a.1 ≤ t ∧ t ≤ b.1)) :
    getValueAt (a :: b :: l) t = getValueAt (b :: l) t := by
  have hIL : interpLoop (a :: b :: l) t = interpLoop (b :: l) t := by
    rw [interpLoop, if_neg h]
  rw [getValueAt, getValueAt, hIL, List.getLast_cons (List.cons_ne_nil b l)]

/-- `get_value_at` when the first two events bracket `time`. -/
theorem getValueAt_bracket_head (p q : ℚ × ℚ) (post : List (ℚ × ℚ)) (t : ℚ)
    (h1 : p.1 ≤ t) (h2 : t ≤ q.1) :
    getValueAt (p :: q :: post) t = p.2 + (q.2 - p.2) * (t - p.1) / (q.1 - p.1) := by
  rw [getValueAt, interpLoop, if_pos ⟨h1, h2⟩]

/-- `get_value_at` for a time bracketed by some adjacent pair of a
strictly time-sorted event list. -/
theorem getValueAt_bracket (pre : List (ℚ × ℚ)) (p q : ℚ × ℚ) (post : List (ℚ × ℚ)) (t : ℚ)
    (hs : List.Chain' eventLT (pre ++ p :: q :: post))
    (h1 : p.1 ≤ t) (h2 : t ≤ q.1) :
    getValueAt (pre ++ p :: q :: post) t
      = p.2 + (q.2 - p.2) * (t - p.1) / (q.1 - p.1) := by
  induction pre with
  | nil => exact getValueAt_bracket_head p q post t h1 h2
  | cons a pre ih =>
    simp only [List.cons_append] at hs ⊢
    rcases pre with _ | ⟨b, pre'⟩
    · simp only [List.nil_append] at hs ⊢
      by_cases hb : a.1 ≤ t ∧ t ≤ p.1
      · have hpt : t = p.1 := le_antisymm hb.2 h1
        have hap : a.1 < p.1 := (List.chain'_cons.mp hs).1
        rw [getValueAt_bracket_head a p (q :: post) t hb.1 hb.2, hpt]
        have hne : p.1 - a.1 ≠ 0 := sub_ne_zero.mpr (ne_of_gt hap)
        field_simp
      · rw [getValueAt_cons₂ a p (q :: post) t hb]
        exact getValueAt_bracket_head p q post t h1 h2
    · simp only [List.cons_append] at ih hs ⊢
      have hbp : b.1 < p.1 := by
        refine chain'_head_lt b (pre' ++ p :: q :: post) ?_ p ?_
        · exact (List.chain'_cons.mp hs).2
        · exact List.mem_append_right _ (List.mem_cons_self p _)
      have hnb : ¬(a.1 ≤ t ∧ t ≤ b.1) := by
        rintro ⟨-, htb⟩
        exact absurd (lt_of_le_of_lt h1 (lt_of_le_of_lt htb hbp)) (lt_irrefl _)
      rw [getValueAt_cons₂ a b (pre' ++ p :: q :: post) t hnb]
      exact ih (List.Chain'.tail hs)

/-- `get_value_at` after the last event of a strictly sorted event list:
the loop finds no bracket and the last event's value is returned. -/
theorem getValueAt_after_last (l : List (ℚ × ℚ)) (t : ℚ) (hne : l ≠ [])
    (hs : List.Chain' eventLT l) (h : (l.getLast hne).1 < t) :
    getValueAt l t = (l.getLast hne).2 := by
  induction l with
  | nil => exact absurd rfl hne
  | cons a l ih =>
    rcases l with _ | ⟨b, l'⟩
    · rfl
    · have hgl : (a :: b :: l').getLast (List.cons_ne_nil a (b :: l'))
          = (b :: l').getLast (List.cons_ne_nil b l') :=
        List.getLast_cons (List.cons_ne_nil b l')
      have hbl : b.1 ≤ ((b :: l').getLast (List.cons_ne_nil b l')).1 :=
        chain'_head_le_getLast b l' (List.chain'_cons.mp hs).2
      have hnb : ¬(a.1 ≤ t ∧ t ≤ b.1) := by
        rintro ⟨-, htb⟩
        rw [hgl] at h
        exact absurd h (not_lt.mpr (htb.trans hbl))
      rw [getValueAt_cons₂ a b l' t hnb, hgl]
      exact ih (List.cons_ne_nil b l') (List.chain'_cons.mp hs).2 (hgl ▸ h)

/-- `get_value_at` before the first event of a strictly sorted event
list: the loop finds no bracket, so the LAST event's value is returned. -/
theorem getValueAt_before_first (l : List (ℚ × ℚ)) (t : ℚ) (hne : l ≠ [])
    (hs : List.Chain' eventLT l) (h : t < (l.head hne).1) :
    getValueAt l t = (l.getLast hne).2 := by
  induction l with
  | nil => exact absurd rfl hne
  | cons a l ih =>
    rcases l with _ | ⟨b, l'⟩
    · rfl
    · have hab : a.1 < b.1 := (List.chain'_cons.mp hs).1
      have hnb : ¬(a.1 ≤ t ∧ t ≤ b.1) := by
        rintro ⟨hat, -⟩
        exact absurd (lt_of_le_of_lt hat h) (lt_irrefl _)
      rw [getValueAt_cons₂ a b l' t hnb,
        List.getLast_cons (List.cons_ne_nil b l')]
      exact ih (List.cons_ne_nil b l') (List.chain'_cons.mp hs).2 (h.trans hab)

/-! ## C1 -/

/-- C1 counterexample: for events `[(0, 0.0), (10, 1.0)]` the code gives
`value_at(-1) = 1.0`, the LAST event's value, not the claimed first
event's value `0.0` — there is no clamping to the first event before the
first event time. -/
theorem C1_value_at_counterexample :
    getValueAt c1events (-1) = 1 ∧ ¬ getValueAt c1events (-1) = 0 := by decide

/-- C1 (amended): `value_at` returns 0 with no events; the linear
interpolation of a bracketing adjacent pair of the (strictly
time-ascending) event list; and the last event's value after the last
event.  Amended from the claim: before the first event it also returns
the LAST event's value, not the first event's. -/
theorem C1_value_at_amended (events : List (ℚ × ℚ)) (t : ℚ)
    (hs : List.Chain' eventLT events) :
    (events = [] → getValueAt events t = 0) ∧
    (∀ pre p q post, events = pre ++ p :: q :: post → p.1 ≤ t → t ≤ q.1 →
      getValueAt events t = p.2 + (q.2 - p.2) * (t - p.1) / (q.1 - p.1)) ∧
    (∀ hne : events ≠ [], (events.getLast hne).1 < t →
      getValueAt events t = (events.getLast hne).2) ∧
    (∀ hne : events ≠ [], t < (events.head hne).1 →
      getValueAt events t = (events.getLast hne).2) := by
  refine ⟨fun he => by rw [he]; rfl, ?_, ?_, ?_⟩
  · rintro pre p q post rfl h1 h2
    exact getValueAt_bracket pre p q post t hs h1 h2
  · intro hne h
    exact getValueAt_after_last events t hne hs h
  · intro hne h
    exact getValueAt_before_first events t hne hs h

/-- C1 witness: the amended theorem at the spec's example events — the
interpolated value at 5 is 1/2, the value at 100 is the last value 1, and
the value at −1 is the last value 1 as well. -/
theorem C1_value_at_witness :
    getValueAt c1events 5 = 1 / 2 ∧
    getValueAt c1events 100 = 1 ∧
    getValueAt c1events (-1) = 1 := by
  have hs : List.Chain' eventLT c1events := by
    simp [c1events, List.chain'_cons, eventLT]
  refine ⟨?_, ?_, ?_⟩
  · have h := (C1_value_at_amended c1events 5 hs).2.1 [] (0, 0) (10, 1) [] rfl
      (by norm_num) (by norm_num)
    rw [h]; norm_num
  · have h := (C1_value_at_amended c1events 100 hs).2.2.1 (by decide) (by decide)
    rw [h]; rfl
  · have h := (C1_value_at_amended c1events (-1) hs).2.2.2 (by decide) (by decide)
    rw [h]; rfl

/-! ## C9 -/

/-- C9: `probe_content` is exactly `is_gzip or is_xml`; `is_gzip` tests
for the two magic bytes `0x1F 0x8B` and `is_xml` for the 38 bytes of the
exact UTF-8 version-1.0 XML prolog; the bytes of `b"random"` probe
false. -/
theorem C9_probe_confirmed :
    (∀ content : List Nat, probeContent content = (isGzip content || isXml content)) ∧
    (∀ content : List Nat, isGzip content = List.isPrefixOf [0x1f, 0x8b] content) ∧
    (∀ content : List Nat, isXml content =
      List.isPrefixOf [60, 63, 120, 109, 108, 32, 118, 101, 114, 115, 105, 111, 110,
        61, 34, 49, 46, 48, 34, 32, 101, 110, 99, 111, 100, 105, 110, 103, 61, 34,
        85, 84, 70, 45, 56, 34, 63, 62] content) ∧
    probeContent [114, 97, 110, 100, 111, 109] = false := by
  refine ⟨fun content => Bool.or_comm (isXml content) (isGzip content), fun _ => rfl,
    fun _ => rfl, by decide⟩

/-! ## C2 -/

/-- C2: on the master-less document `c2doc`, parse succeeds and the two
warnings are recorded with the tempo left unset — but `get_tempo(t)` for
`t > 0` raises `IndexError` (`none`) on the empty tempo cache instead of
returning the default tempo: only `get_tempo(0)` returns the default 0. -/
theorem C2_missing_master_code_bug :
    parse c2lib c2bytes = .ok (some c2proj, c2log) ∧
    "WARNING: Master track not found" ∈ c2log ∧
    c2proj.tempoCache = [] ∧
    getTempo c2proj 0 = some 0 ∧
    getTempo c2proj 1 = none ∧
    getTempo c2proj (1 / 2) = none := by
  refine ⟨by decide, by decide, by decide, by decide, ?_, ?_⟩
  · rw [getTempo, if_neg (by norm_num)]
    exact pyIndex_nil _
  · rw [getTempo, if_neg (by norm_num)]
    exact pyIndex_nil _

/-! ## C3 -/

/-- C3: version parsing succeeds on `MinorVersion="10.0_377"`,
`MajorVersion="5"` with `(5, 10, 0, 377)` and the other attributes as
metadata; but on `MinorVersion="abc"` the regex match is `None`, so
`.groups()` raises an uncaught `AttributeError` — `parse` crashes instead
of reporting a structural failure and returning no model. -/
theorem C3_version_crash_code_bug :
    parseAndVerifyVersion c3ok = .ok ⟨5, 10, 0, 377, [("Creator", "Ableton Live 10.1.7")]⟩ ∧
    parseAndVerifyVersion c3root = .error "AttributeError: NoneType has no attribute groups" ∧
    parse c3lib xmlProlog = .error "AttributeError: NoneType has no attribute groups" := by
  refine ⟨by decide, by decide, by decide⟩

/-- `__build_tempo_cache` when the master track and its Tempo automation
are found. -/
theorem buildTempoCache_found (tracks : List TrackE) (dur : ℚ) (mt : TrackE)
    (auto : AutomationE)
    (hm : tracks.find? (fun t => t.kind == TrackKind.master) = some mt)
    (ha : mt.automations.find? (fun a => a.target == some "Tempo") = some auto) :
    buildTempoCache tracks dur =
      (getValueAt auto.events 0,
       (List.range (ratTrunc (dur / TIME_SLICE)).toNat).map
         (fun i : Nat => getValueAt auto.events (i : ℚ)),
       []) := by
  unfold buildTempoCache
  simp only [hm, ha]

/-! ## C4 -/

/-- C4: on a project of duration 4 whose master track carries the Tempo
automation `[(0, 60), (4, 100)]`, the cache has
`int(duration / TIME_SLICE) = 4000` entries, but entry `k` is
`value_at(k)` sampled at the raw integer loop index — entry 1 is
`value_at(1) = 70`, not the claimed `value_at(1 * 1/1000) = 60.01` — so
`get_tempo(0.001)`, which reads entry `int(0.001/0.001) = 1`, returns
70. -/
theorem C4_tempo_cache_code_bug :
    c4proj.duration = 4 ∧
    c4proj.tempoCache.length = 4000 ∧
    c4proj.tempoCache[1]? = some (getValueAt c4auto.events 1) ∧
    getValueAt c4auto.events 1 = 70 ∧
    getValueAt c4auto.events (1 * (1 / 1000)) = 6001 / 100 ∧
    ((70 : ℚ) ≠ 6001 / 100) ∧
    getTempo c4proj (1 / 1000) = some 70 := by
  have hd : calcDuration c4tracks = 4 := by
    norm_num [calcDuration, c4tracks, trackDuration, pyMax]
  have hq : (4 : ℚ) / TIME_SLICE = 4000 := by norm_num [TIME_SLICE]
  have htr : (ratTrunc ((4 : ℚ) / TIME_SLICE)).toNat = 4000 := by
    rw [hq]; decide
  have hfm : c4tracks.find? (fun t => t.kind == TrackKind.master)
      = some ⟨TrackKind.master, "Master", colorDefault, [], [c4auto]⟩ := by decide
  have hfa : ((⟨TrackKind.master, "Master", colorDefault, [], [c4auto]⟩ :
      TrackE)).automations.find? (fun a => a.target == some "Tempo") = some c4auto := by decide
  have hcache : c4proj.tempoCache
      = (List.range 4000).map (fun i : Nat => getValueAt c4auto.events (i : ℚ)) := by
    show (buildTempoCache c4tracks (calcDuration c4tracks)).2.1 = _
    rw [hd, buildTempoCache_found c4tracks 4 _ c4auto hfm hfa, htr]
  have hval1 : getValueAt c4auto.events 1 = 70 := by
    norm_num [c4auto, getValueAt, interpLoop]
  have hentry : c4proj.tempoCache[1]? = some (getValueAt c4auto.events 1) := by
    rw [hcache, List.getElem?_map, List.getElem?_range (by norm_num)]
    norm_num
  refine ⟨?_, ?_, hentry, hval1, ?_, by norm_num, ?_⟩
  · show (setTracks (mkProject 5 10 0 377 [] "h") c4tracks).1.duration = 4
    rw [setTracks]
    exact hd
  · rw [hcache, List.length_map, List.length_range]
  · norm_num [c4auto, getValueAt, interpLoop]
  · rw [getTempo, if_neg (by norm_num)]
    have hidx : ratTrunc ((1 / 1000 : ℚ) / TIME_SLICE) = 1 := by
      have h1 : ((1 : ℚ) / 1000) / TIME_SLICE = 1 := by norm_num [TIME_SLICE]
      rw [h1]; decide
    rw [hidx, pyIndex, if_pos (by norm_num)]
    show c4proj.tempoCache[(1 : Nat)]? = some 70
    rw [hentry, hval1]

/-! ## C5 -/

/-- C5 counterexample: for the gzip input `c5gzBytes`, the digest stored
on the project is the digest of the DECOMPRESSED bytes, not of the
original input bytes as supplied. -/
theorem C5_digest_counterexample :
    parse c5lib c5gzBytes = .ok (some { c2proj with hash := "DIGEST-DECOMPRESSED" }, c2log) ∧
    c5lib.md5hex c5gzBytes = "DIGEST-ORIGINAL" ∧
    ("DIGEST-DECOMPRESSED" : String) ≠ "DIGEST-ORIGINAL" := by
  refine ⟨by decide, by decide, by decide⟩

theorem setTracks_hash (p : AbletonProject) (ts : List TrackE) :
    (setTracks p ts).1.hash = p.hash := rfl

/-- The digest a successful parse stores is that of the content after the
optional gzip decompression. -/
theorem parseAfterSniff_hash (lib : PyLib) (content : List Nat) (log0 : List String)
    (p : AbletonProject) (log : List String)
    (h : parseAfterSniff lib content log0 = .ok (some p, log)) :
    p.hash = lib.md5hex content := by
  unfold parseAfterSniff at h
  split at h
  · split at h
    · simp at h
    · split at h
      · exact absurd h (by simp)
      · split at h
        · exact absurd h (by simp)
        · split at h
          · simp at h
          · rw [Except.ok.injEq, Prod.mk.injEq, Option.some.injEq] at h
            rw [← h.1]
            rfl
  · simp at h

/-- C5 (amended): the stored content digest is the MD5 of the content
after the optional gzip decompression — for plain markup input that is
the original bytes, for gzip input the decompressed bytes. -/
theorem C5_digest_amended (lib : PyLib) (content : List Nat) (p : AbletonProject)
    (log : List String) (h : parse lib content = .ok (some p, log)) :
    p.hash = lib.md5hex (effectiveContent lib content) := by
  unfold parse at h
  unfold effectiveContent
  split at h
  · rename_i hgz
    rw [if_pos hgz]
    split at h
    · rename_i e heq
      rw [heq]
      simp at h
    · rename_i c heq
      rw [heq]
      exact parseAfterSniff_hash lib c [] p log h
  · rename_i hgz
    rw [if_neg hgz]
    exact parseAfterSniff_hash lib content [] p log h

/-- C5 witness: the amended statement at the plain (non-gzip) run of
`c2doc`, where the effective content is the original input itself. -/
theorem C5_digest_witness :
    parse c2lib c2bytes = .ok (some c2proj, c2log) ∧
    c2proj.hash = c2lib.md5hex (effectiveContent c2lib c2bytes) :=
  ⟨by decide, C5_digest_amended c2lib c2bytes c2proj c2log (by decide)⟩

/-! ## C6 -/

/-- The track loop on children none of which carries a recognized tag:
no tracks, one warning per child. -/
theorem parseTracksLoop_unknown (cs : List XML) (h : ∀ c ∈ cs, knownTag c.tag = false) :
    parseTracksLoop cs
      = .ok ([], cs.map (fun c => "WARNING: Unknown track type: " ++ c.tag)) := by
  induction cs with
  | nil => rfl
  | cons c cs ih =>
    have hc := h c (List.mem_cons_self c cs)
    rw [parseTracksLoop, hc]
    rw [ih (fun d hd => h d (List.mem_cons_of_mem c hd))]
    simp

/-- The track loop against its specification: the recognized children,
parsed in document order. -/
theorem parseTracksLoop_known (cs : List XML) (rs : List (TrackE × List String))
    (h : mapExcept dispatchTrack (cs.filter (fun c => knownTag c.tag)) = .ok rs) :
    ∃ lg, parseTracksLoop cs = .ok (rs.map (·.1), lg) := by
  induction cs generalizing rs with
  | nil =>
    simp only [List.filter_nil, mapExcept, Except.ok.injEq] at h
    subst h
    exact ⟨[], rfl⟩
  | cons c cs ih =>
    cases hk : knownTag c.tag with
    | true =>
      have hfil : List.filter (fun d => knownTag d.tag) (c :: cs)
          = c :: List.filter (fun d => knownTag d.tag) cs := by
        simp [List.filter_cons, hk]
      rw [hfil] at h
      simp only [mapExcept] at h
      split at h
      · exact absurd h (by simp)
      · rename_i b hb
        split at h
        · exact absurd h (by simp)
        · rename_i bs hbs
          rw [Except.ok.injEq] at h
          subst h
          obtain ⟨lg, hlg⟩ := ih bs hbs
          exact ⟨b.2 ++ lg, by simp [parseTracksLoop, hk, hb, hlg]⟩
    | false =>
      have hfil : List.filter (fun d => knownTag d.tag) (c :: cs)
          = List.filter (fun d => knownTag d.tag) cs := by
        simp [List.filter_cons, hk]
      rw [hfil] at h
      obtain ⟨lg, hlg⟩ := ih rs h
      exact ⟨("WARNING: Unknown track type: " ++ c.tag) :: lg,
        by simp [parseTracksLoop, hk, hlg]⟩

/-- `__parse_simple_track` constructs a track of the class it is given. -/
theorem parseSimpleTrack_kind (k : TrackKind) (e : XML) (t : TrackE) (lg : List String)
    (h : parseSimpleTrack k e = .ok (t, lg)) : t.kind = k := by
  unfold parseSimpleTrack at h
  split at h
  · exact absurd h (by simp)
  · split at h
    · exact absurd h (by simp)
    · split at h
      · exact absurd h (by simp)
      · rw [Except.ok.injEq, Prod.mk.injEq] at h
        rw [← h.1]

/-- C6: the project's track list is the recognized audio/midi/group/return
children of the track container, parsed in their original interleaved
document order, with — when the `LiveSet` carries a (truthy) `MainTrack`
or else `MasterTrack` child anywhere among its children — exactly that
one master track appended last; with no such child the list is just the
ordered known tracks and a warning is recorded. -/
theorem C6_track_order_confirmed
    (tree ls trks : XML) (rs : List (TrackE × List String))
    (h1 : pyFind tree "LiveSet" = some ls)
    (h2 : pyFind ls "Tracks" = some trks)
    (h3 : mapExcept dispatchTrack (trks.children.filter (fun c => knownTag c.tag)) = .ok rs) :
    (∀ me mt mlog,
      (if truthyOpt (pyFind ls "MainTrack") then pyFind ls "MainTrack"
       else pyFind ls "MasterTrack") = some me →
      me.children ≠ [] →
      parseSimpleTrack TrackKind.master me = .ok (mt, mlog) →
      ∃ lg, parseTracks tree = .ok (rs.map (·.1) ++ [mt], lg) ∧ mt.kind = TrackKind.master) ∧
    (truthyOpt (pyFind ls "MainTrack") = false →
     truthyOpt (pyFind ls "MasterTrack") = false →
     ∃ lg, parseTracks tree = .ok (rs.map (·.1), lg) ∧
       "WARNING: Main track not found" ∈ lg) := by
  obtain ⟨lg0, hloop⟩ := parseTracksLoop_known trks.children rs h3
  constructor
  · intro me mt mlog hme hch hmp
    refine ⟨lg0 ++ mlog, ?_, parseSimpleTrack_kind _ _ _ _ hmp⟩
    have hch' : me.children.isEmpty = false := by
      cases hc : me.children with
      | nil => exact absurd hc hch
      | cons a l => rfl
    unfold parseTracks
    simp only [h1, h2, hloop, hme, hch', hmp, Bool.false_eq_true, if_false]
  · intro hm1 hm2
    refine ⟨lg0 ++ ["WARNING: Main track not found"], ?_, by simp⟩
    unfold parseTracks
    simp only [h1, h2, hloop, hm1, Bool.false_eq_true, if_false]
    cases hms : pyFind ls "MasterTrack" with
    | none => rfl
    | some me =>
      rw [hms] at hm2
      have hch : me.children.isEmpty = true := by
        simpa [truthyOpt] using hm2
      simp only [hch, if_true]

/-- C6 witness: for `c6tree` — audio, junk, return inside `Tracks` and a
`MainTrack` under `LiveSet` — the parsed list is audio, return (document
order, junk skipped) with the master appended last. -/
theorem C6_track_order_witness :
    ∃ lg, parseTracks c6tree
        = .ok ([(trackAudioParsed, ([] : List String)),
                (trackReturnParsed, ([] : List String))].map (·.1) ++ [trackMasterParsed], lg) ∧
      trackMasterParsed.kind = TrackKind.master :=
  (C6_track_order_confirmed c6tree c6ls c6trks
      [(trackAudioParsed, []), (trackReturnParsed, [])]
      (by decide) (by decide) (by decide)).1
    masterTrackElem trackMasterParsed [] (by decide) (by decide) (by decide)

/-! ## C10 -/

/-- C10: a structurally valid document (version parses, `LiveSet/Tracks`
present) whose track container has no recognized track children and
whose `LiveSet` has no (truthy) `MainTrack` or `MasterTrack` child
parses to `None` — the empty track list aborts the whole parse — without
raising. -/
theorem C10_empty_project_confirmed (lib : PyLib) (content : List Nat)
    (tree ls trks : XML) (v : VersionInfo)
    (hgz : isGzip content = false) (hxml : isXml content = true)
    (hfs : lib.fromstring content = .ok tree)
    (hver : parseAndVerifyVersion tree = .ok v)
    (h1 : pyFind tree "LiveSet" = some ls) (h2 : pyFind ls "Tracks" = some trks)
    (hun : ∀ c ∈ trks.children, knownTag c.tag = false)
    (hm1 : truthyOpt (pyFind ls "MainTrack") = false)
    (hm2 : truthyOpt (pyFind ls "MasterTrack") = false) :
    ∃ log, parse lib content = .ok (none, log) := by
  have hloop := parseTracksLoop_unknown trks.children hun
  have htracks : ∃ tlog, parseTracks tree = .ok ([], tlog) := by
    unfold parseTracks
    simp only [h1, h2, hloop, hm1, Bool.false_eq_true, if_false]
    cases hms : pyFind ls "MasterTrack" with
    | none => exact ⟨_, rfl⟩
    | some me =>
      rw [hms] at hm2
      have hch : me.children.isEmpty = true := by
        simpa [truthyOpt] using hm2
      simp only [hch, if_true]
      exact ⟨_, rfl⟩
  obtain ⟨tlog, ht⟩ := htracks
  refine ⟨[] ++ tlog, ?_⟩
  unfold parse
  simp only [hgz, Bool.false_eq_true, if_false]
  unfold parseAfterSniff
  simp only [hxml, hfs, hver, ht, if_true, List.isEmpty_nil]

/-! ## C7 -/

mutual

/-- Every path the pre-order enumeration records extends the starting
path. -/
theorem preorderPaths_extendsPath : ∀ (path : List String) (t : XML) (pr : List String × XML),
    pr ∈ preorderPaths path t → path <+: pr.1
  | path, .elem tg attrs cs, pr => by
    rw [preorderPaths]
    intro h
    rcases List.mem_cons.mp h with rfl | h'
    · exact List.prefix_refl path
    · exact (List.prefix_append path [tg]).trans
        (preorderPathsList_extendsPath (path ++ [tg]) cs pr h')

theorem preorderPathsList_extendsPath : ∀ (path : List String) (cs : List XML)
    (pr : List String × XML), pr ∈ preorderPathsList path cs → path <+: pr.1
  | path, [], pr => by
    rw [preorderPathsList]
    intro h
    cases h
  | path, c :: cs, pr => by
    rw [preorderPathsList]
    intro h
    rcases List.mem_append.mp h with h' | h'
    · exact preorderPaths_extendsPath path c pr h'
    · exact preorderPathsList_extendsPath path cs pr h'

end

mutual

/-- The source's recursive walk agrees with the spec's pre-order
first-match description, provided every marker node carries an integer
id. -/
theorem walk_spec : ∀ (targetId : Int) (path : List String) (t : XML),
    wfMarkersX t = true →
    walk targetId path t
      = .ok (((preorderPaths path t).find?
          (fun pr => isMarkerFor targetId pr.2)).map (·.1))
  | targetId, path, .elem tg attrs cs => by
    intro hwf
    rw [wfMarkersX, Bool.and_eq_true] at hwf
    obtain ⟨hid, hcs⟩ := hwf
    rw [walk, preorderPaths, List.find?]
    by_cases htag : (tg == "AutomationTarget") = true
    · rw [htag, Bool.not_true, Bool.false_or] at hid
      obtain ⟨s, hs, n, hn⟩ : ∃ s, attrs.lookup "Id" = some s ∧ ∃ n, parsePyInt s = some n := by
        cases hl : attrs.lookup "Id" with
        | none => rw [hl] at hid; exact absurd hid (by simp)
        | some s =>
          rw [hl] at hid
          cases hp : parsePyInt s with
          | none => rw [Option.some_bind, hp] at hid; exact absurd hid (by simp)
          | some n => exact ⟨s, rfl, n, hp⟩
      have hmark : isMarkerFor targetId (XML.elem tg attrs cs) = (n == targetId) := by
        simp only [isMarkerFor, XML.tag, XML.attrib, htag, Bool.true_and, hs,
          Option.some_bind, hn]
        rfl
      rw [if_pos htag]
      simp only [hs, hn, hmark]
      by_cases hnt : (n == targetId) = true
      · rw [if_pos hnt]
        simp only [hnt]
        rfl
      · rw [if_neg hnt]
        simp only [Bool.not_eq_true _ ▸ hnt]
        rw [walkChildren_spec targetId (path ++ [tg]) cs (by simp) hcs]
    · have hmark : isMarkerFor targetId (XML.elem tg attrs cs) = false := by
        simp only [isMarkerFor, XML.tag, XML.attrib, Bool.not_eq_true _ ▸ htag,
          Bool.false_and]
      rw [if_neg htag]
      simp only [hmark]
      rw [walkChildren_spec targetId (path ++ [tg]) cs (by simp) hcs]

theorem walkChildren_spec : ∀ (targetId : Int) (path : List String) (cs : List XML),
    path ≠ [] → wfMarkersL cs = true →
    walkChildren targetId path cs
      = .ok (((preorderPathsList path cs).find?
          (fun pr => isMarkerFor targetId pr.2)).map (·.1))
  | targetId, path, [] => by
    intro hp hwf
    rw [walkChildren, preorderPathsList]
    rfl
  | targetId, path, c :: cs => by
    intro hp hwf
    rw [wfMarkersL, Bool.and_eq_true] at hwf
    obtain ⟨hc, hcs⟩ := hwf
    rw [walkChildren, walk_spec targetId path c hc, preorderPathsList, List.find?_append]
    cases hfind : (preorderPaths path c).find? (fun pr => isMarkerFor targetId pr.2) with
    | some pr =>
      have hne : pr.1 ≠ [] := by
        intro h0
        have hpre := preorderPaths_extendsPath path c pr (List.mem_of_find?_eq_some hfind)
        rw [h0] at hpre
        exact hp (List.prefix_nil.mp hpre)
      have ht : truthyList (some pr.1) = true := by
        cases hl : pr.1 with
        | nil => exact absurd hl hne
        | cons a l => rfl
      simp [ht]
    | none =>
      simp only [Option.map_none', Option.none_or, truthyList, Bool.false_eq_true,
        if_false]
      exact walkChildren_spec targetId path cs hp hcs

end

/-- C7 counterexample: on a track subtree whose root itself is the
matching marker node, the first pre-order match carries the empty
accumulated path, but resolution returns a logged failure (`None`)
instead of the claimed joined-and-collapsed path (the empty string). -/
theorem C7_resolve_root_counterexample :
    specFirstMatch 5 c7root = some [] ∧
    resolveAutomationTarget 5 c7root = .ok (none, [resolveErrMsg 5]) ∧
    resolveAutomationTarget 5 c7root
      ≠ .ok (some (applyShortcuts (String.intercalate "." [])), []) := by
  refine ⟨by decide, by decide, ?_⟩
  intro h
  rw [show resolveAutomationTarget 5 c7root = .ok (none, [resolveErrMsg 5]) from by decide] at h
  rw [Except.ok.injEq, Prod.mk.injEq] at h
  exact Option.noConfusion h.1

/-- C7 (amended): with every marker node carrying an integer id,
resolution returns the accumulated root-to-marker tag path of the first
pre-order match joined with `.` and collapsed through the shortcut table
in iteration order — except that a match at the track root itself (the
only way the accumulated path is empty) is treated as a failure, exactly
like no match at all: `None` with a logged error. -/
theorem C7_resolve_amended (targetId : Int) (track : XML)
    (hwf : wfMarkersX track = true) :
    resolveAutomationTarget targetId track =
      match specFirstMatch targetId track with
      | some (s :: rest) =>
          .ok (some (applyShortcuts (String.intercalate "." (s :: rest))), [])
      | some [] => .ok (none, [resolveErrMsg targetId])
      | none => .ok (none, [resolveErrMsg targetId]) := by
  unfold resolveAutomationTarget specFirstMatch
  rw [walk_spec targetId [] track hwf]
  cases hfind : (preorderPaths [] track).find? (fun pr => isMarkerFor targetId pr.2) with
  | none => simp [truthyList]
  | some pr =>
    cases hp : pr.1 with
    | nil => simp [truthyList, hp]
    | cons a l => simp [truthyList, hp]

/-- C7 witness: the amended theorem at a volume marker nested four levels
under an audio track root: the joined path before collapsing is
`AudioTrack.DeviceChain.Mixer.Volume`. -/
theorem C7_resolve_witness :
    wfMarkersX c7track = true ∧
    resolveAutomationTarget 7 c7track
      = .ok (some (applyShortcuts
          (String.intercalate "." ["AudioTrack", "DeviceChain", "Mixer", "Volume"])), []) := by
  refine ⟨by decide, ?_⟩
  rw [C7_resolve_amended 7 c7track (by decide)]
  rw [show specFirstMatch 7 c7track
      = some ["AudioTrack", "DeviceChain", "Mixer", "Volume"] from by decide]

/-! ## C8 -/

/-- Resolution on a track with well-formed markers and no matching marker
is the logged soft failure. -/
theorem resolve_none_of_no_match (targetId : Int) (track : XML)
    (hwf : wfMarkersX track = true) (hnm : specFirstMatch targetId track = none) :
    resolveAutomationTarget targetId track = .ok (none, [resolveErrMsg targetId]) := by
  unfold resolveAutomationTarget
  rw [walk_spec targetId [] track hwf]
  unfold specFirstMatch at hnm
  rw [hnm]
  rfl

/-- `mapExcept` preserves length on success. -/
theorem mapExcept_length (f : α → Except String β) (l : List α) (bs : List β)
    (h : mapExcept f l = .ok bs) : bs.length = l.length := by
  induction l generalizing bs with
  | nil =>
    rw [mapExcept, Except.ok.injEq] at h
    subst h
    rfl
  | cons a as ih =>
    rw [mapExcept] at h
    split at h
    · exact absurd h (by simp)
    · rename_i b hb
      split at h
      · exact absurd h (by simp)
      · rename_i cs hcs
        rw [Except.ok.injEq] at h
        subst h
        rw [List.length_cons, List.length_cons, ih cs hcs]

/-- C8: an envelope whose target id matches no marker in its track is
still recorded — with target `None`, its events kept, and the failure
logged — and envelope collection processes every envelope, so the
enclosing parse goes on and, as the concrete run shows, still returns a
model. -/
theorem C8_unresolved_target_confirmed :
    (∀ (track envelope et pid au evs : XML) (vs : String) (targetId : Int)
        (pts : List (ℚ × ℚ)),
      wfMarkersX track = true →
      specFirstMatch targetId track = none →
      pyFind envelope "EnvelopeTarget" = some et →
      pyFind et "PointeeId" = some pid →
      pid.attrib.lookup "Value" = some vs →
      parsePyInt vs = some targetId →
      pyFind envelope "Automation" = some au →
      pyFind au "Events" = some evs →
      mapExcept parseEventPoint evs.children = .ok pts →
      parseEnvelope track envelope
        = .ok (⟨"unknown", colorDefault, none, pts⟩, [resolveErrMsg targetId])) ∧
    (∀ (track ae envs : XML) (rs : List (AutomationE × List String)),
      pyFind track "AutomationEnvelopes" = some ae →
      pyFind ae "Envelopes" = some envs →
      mapExcept (parseEnvelope track) envs.children = .ok rs →
      parseEnvelopes track = .ok (rs.map (·.1), rs.flatMap (·.2)) ∧
        rs.length = envs.children.length) ∧
    (parse c8lib c2bytes = .ok (some c8proj, c8log) ∧
      c8trackParsed.automations = [c8auto] ∧ c8auto.target = none ∧
      resolveErrMsg 999 ∈ c8log) := by
  refine ⟨?_, ?_, by decide, by decide, by decide, List.mem_cons_self _ _⟩
  · intro track envelope et pid au evs vs targetId pts
      hwf hnm het hpid hvs hint hau hevs hpts
    unfold parseEnvelope
    simp only [findE, het, hpid, hau, hevs, attrGetE, hvs, pyIntE, hint,
      resolve_none_of_no_match targetId track hwf hnm, hpts]
  · intro track ae envs rs hae henvs hrs
    constructor
    · unfold parseEnvelopes
      simp only [findE, hae, henvs, hrs]
    · exact mapExcept_length _ _ _ hrs

/-- C8 witness: the envelope-level statement at the concrete track
`c8track` with the unresolvable id 999. -/
theorem C8_unresolved_target_witness :
    parseEnvelope c8track c8envelope = .ok (c8auto, [resolveErrMsg 999]) :=
  C8_unresolved_target_confirmed.1 c8track c8envelope
    (.elem "EnvelopeTarget" [] [.elem "PointeeId" [("Value", "999")] []])
    (.elem "PointeeId" [("Value", "999")] [])
    (.elem "Automation" []
      [.elem "Events" []
        [.elem "FloatEvent" [("Id", "1"), ("Time", "0"), ("Value", "1")] []]])
    (.elem "Events" []
      [.elem "FloatEvent" [("Id", "1"), ("Time", "0"), ("Value", "1")] []])
    "999" 999 [(0, 1)]
    (by decide) (by decide) (by decide) (by decide) (by decide) (by decide)
    (by decide) (by decide) (by decide)

/-- C10 witness: the concrete document `c10doc` (one unrecognized child,
no master) parses to `None`. -/
theorem C10_empty_project_witness :
    ∃ log, parse c10lib c2bytes = .ok (none, log) :=
  C10_empty_project_confirmed c10lib c2bytes c10doc
    (.elem "LiveSet" [] [.elem "Tracks" [] [.elem "Junk" [] []]])
    (.elem "Tracks" [] [.elem "Junk" [] []])
    ⟨5, 10, 0, 377, []⟩
    (by decide) (by decide) (by decide) (by decide) (by decide) (by decide)
    (by decide) (by decide) (by decide)

end Alsparse
